import Mathlib

/-!
# Object metric gathering and the fake metrics client

A shallow embedding of

* `internal/object/gather.go`: `Gather.Gather` and `Gather.GatherPerPod`,
* `internal/fake/client.go`: the reactor-backed `MetricsClient`.

Conventions of the embedding.

* Go `int64` values are only passed through, never computed with, so they are
  `Int`.
* `labels.Selector`, `time.Time` and `podmetrics.MetricsInfo` are declared
  outside these files; they are the type parameters `Sel`, `Time`, `Info`.
* A pointer that may be `nil` is an `Option`; a Go result pair
  `(*object.Metric, error)` is `Option Metric × Option GoError`.
* Client capabilities are interface values whose implementations live outside
  the gatherer.  They may be stateful, so every method takes the state `W` of the
  outside world and returns the new one.  Methods are assumed to return.
* Every interface call made by the gatherer is recorded, with its arguments, in
  a call log that is part of the machine state.
-/

set_option linter.dupNamespace false

namespace K8sHorizMetrics

/-! ## Errors -/

/-- Go `error` values: a plain error carrying its message, or the result of
`fmt.Errorf` with a `%w` verb, which stores the formatted message and the
wrapped error. -/
inductive GoError where
  | errorString (msg : String)
  | wrapError (msg : String) (err : GoError)
deriving DecidableEq

/-- The method `Error()` of an error value. -/
def GoError.Error : GoError → String
  | .errorString msg => msg
  | .wrapError msg _ => msg

/-- The function `errors.Unwrap`: the wrapped error, if there is one. -/
def GoError.Unwrap : GoError → Option GoError
  | .errorString _ => none
  | .wrapError _ err => some err

/-- The call `fmt.Errorf(format, a..., err)` for a format string that ends in its
only `%w` verb: `formatted` is the text produced by everything before `%w`, the
message is that text followed by `err.Error()`, and the result wraps `err`. -/
def Errorf (formatted : String) (err : GoError) : GoError :=
  .wrapError (formatted ++ err.Error) err

/-- The text `needle` occurs somewhere in `hay`, as `strings.Contains(hay, needle)`
decides it. -/
def occursIn (needle hay : String) : Prop :=
  needle.data <:+: hay.data

instance occursIn.decidable (needle hay : String) : Decidable (occursIn needle hay) := by
  unfold occursIn
  infer_instance

/-- Result of running a Go function body: it returns a value, or the goroutine
panics on a nil pointer dereference. -/
inductive Outcome (α : Type) where
  | returned (a : α)
  | nilDereference

/-! ## Data model -/

/-- The type `autoscaling.CrossVersionObjectReference` of the Kubernetes API. -/
structure CrossVersionObjectReference where
  Kind : String
  Name : String
  APIVersion : String
deriving DecidableEq

namespace value

/-- The type `value.MetricValue`: both fields are `*int64`. -/
structure MetricValue where
  Value : Option Int
  AverageValue : Option Int
deriving DecidableEq

end value

namespace object

/-- The type `object.Metric`, with the fields the composite literals of
`gather.go` set: `Current`, `ReadyPodCount` (a `*int64`) and `Timestamp`. -/
structure Metric (Time : Type) where
  Current : value.MetricValue
  ReadyPodCount : Option Int
  Timestamp : Time

end object

/-! ## Client capabilities -/

namespace metricsclient

/-- The interface `metricsclient.Client`, with the method set the fake client
implements. -/
structure Client (W Sel Time Info : Type) where
  GetResourceMetric : String → String → Sel → W → (Info × Time × Option GoError) × W
  GetRawMetric : String → String → Sel → Sel → W → (Info × Time × Option GoError) × W
  GetObjectMetric : String → String → Option CrossVersionObjectReference → Sel → W →
    (Int × Time × Option GoError) × W
  GetExternalMetric : String → String → Sel → W → (List Int × Time × Option GoError) × W

end metricsclient

namespace podutil

/-- The interface `podutil.PodReadyCounter`. -/
structure PodReadyCounter (W Sel : Type) where
  GetReadyPodsCount : String → Sel → W → (Int × Option GoError) × W

end podutil

/-- One entry of the call log: an interface method invoked by the gatherer,
with the arguments it was given. -/
inductive Call (Sel : Type) where
  | GetObjectMetric (metricName namespace_ : String)
      (objectRef : Option CrossVersionObjectReference) (metricSelector : Sel)
  | GetReadyPodsCount (namespace_ : String) (podSelector : Sel)
deriving DecidableEq

namespace object

/-- The struct `Gather` of package `object`. -/
structure Gather (W Sel Time Info : Type) where
  MetricsClient : metricsclient.Client W Sel Time Info
  PodReadyCounter : podutil.PodReadyCounter W Sel

/-- Machine state for a method call on `c *Gather`: the struct `c` points to,
the state of the outside world the clients act on, and the log of interface
calls made so far. -/
structure Machine (W Sel Time Info : Type) where
  c : Gather W Sel Time Info
  world : W
  calls : List (Call Sel)

variable {W Sel Time Info : Type}

/-- The expression `c.MetricsClient.GetObjectMetric(metricName, namespace,
objectRef, metricSelector)`: the method is applied to the current world, the
world is replaced by the one it leaves, and the call is logged. -/
def Machine.callGetObjectMetric (s : Machine W Sel Time Info) (metricName namespace_ : String)
    (objectRef : Option CrossVersionObjectReference) (metricSelector : Sel) :
    (Int × Time × Option GoError) × Machine W Sel Time Info :=
  let r := s.c.MetricsClient.GetObjectMetric metricName namespace_ objectRef metricSelector s.world
  (r.1, { s with
    world := r.2
    calls := s.calls ++ [Call.GetObjectMetric metricName namespace_ objectRef metricSelector] })

/-- The expression `c.PodReadyCounter.GetReadyPodsCount(namespace, podSelector)`. -/
def Machine.callGetReadyPodsCount (s : Machine W Sel Time Info) (namespace_ : String)
    (podSelector : Sel) : (Int × Option GoError) × Machine W Sel Time Info :=
  let r := s.c.PodReadyCounter.GetReadyPodsCount namespace_ podSelector s.world
  (r.1, { s with
    world := r.2
    calls := s.calls ++ [Call.GetReadyPodsCount namespace_ podSelector] })

/-- The method `func (c *Gather) Gather`.  On the metrics failure path the
arguments of `fmt.Errorf` read `objectRef.Kind`, which panics for a nil
`objectRef`. -/
def Gather.Gather (metricName namespace_ : String)
    (objectRef : Option CrossVersionObjectReference) (podSelector metricSelector : Sel)
    (s : Machine W Sel Time Info) :
    Outcome (Option (Metric Time) × Option GoError) × Machine W Sel Time Info :=
  match s.callGetObjectMetric metricName namespace_ objectRef metricSelector with
  | ((_, _, some err), s1) =>
    match objectRef with
    | none => (.nilDereference, s1)
    | some ref =>
      (.returned (none, some (Errorf
        ("unable to get metric " ++ metricName ++ ": " ++ ref.Kind ++ " on " ++ namespace_ ++ " "
          ++ ref.Name ++ ": ") err)), s1)
  | ((utilization, timestamp, none), s1) =>
    match s1.callGetReadyPodsCount namespace_ podSelector with
    | ((_, some err), s2) =>
      (.returned (none, some (Errorf "unable to calculate ready pods: " err)), s2)
    | ((readyPodCount, none), s2) =>
      (.returned (some
        { Current := { Value := some utilization, AverageValue := none }
          ReadyPodCount := some readyPodCount
          Timestamp := timestamp }, none), s2)

/-- The method `func (c *Gather) GatherPerPod`. -/
def Gather.GatherPerPod (metricName namespace_ : String)
    (objectRef : Option CrossVersionObjectReference) (metricSelector : Sel)
    (s : Machine W Sel Time Info) :
    Outcome (Option (Metric Time) × Option GoError) × Machine W Sel Time Info :=
  match s.callGetObjectMetric metricName namespace_ objectRef metricSelector with
  | ((_, _, some err), s1) =>
    match objectRef with
    | none => (.nilDereference, s1)
    | some ref =>
      (.returned (none, some (Errorf
        ("unable to get metric " ++ metricName ++ ": " ++ ref.Kind ++ " on " ++ namespace_ ++ " "
          ++ ref.Name ++ "/") err)), s1)
  | ((utilization, timestamp, none), s1) =>
    (.returned (some
      { Current := { Value := none, AverageValue := some utilization }
        ReadyPodCount := none
        Timestamp := timestamp }, none), s1)

end object

/-! ## The fake metrics client -/

namespace fake

/-- One entry of the reactor log: a reactor function invoked by the fake client,
with the arguments it was given. -/
inductive ReactorCall (Sel : Type) where
  | GetResourceMetricReactor (resource namespace_ : String) (selector : Sel)
  | GetRawMetricReactor (metricName namespace_ : String) (selector metricSelector : Sel)
  | GetObjectMetricReactor (metricName namespace_ : String)
      (objectRef : Option CrossVersionObjectReference) (metricSelector : Sel)
  | GetExternalMetricReactor (metricName namespace_ : String) (selector : Sel)
deriving DecidableEq

/-- The struct `MetricsClient` of package `fake`: four reactor functions.  A
reactor is a Go closure, so it may read and change state `W` of its own.  The
function fields are taken to be set. -/
structure MetricsClient (W Sel Time Info : Type) where
  GetResourceMetricReactor : String → String → Sel → W → (Info × Time × Option GoError) × W
  GetRawMetricReactor : String → String → Sel → Sel → W → (Info × Time × Option GoError) × W
  GetObjectMetricReactor : String → String → Option CrossVersionObjectReference → Sel → W →
    (Int × Time × Option GoError) × W
  GetExternalMetricReactor : String → String → Sel → W → (List Int × Time × Option GoError) × W

/-- State the fake client runs in: the state of the reactors and the log of
reactor invocations. -/
structure World (W Sel : Type) where
  reactorWorld : W
  reactorCalls : List (ReactorCall Sel)

variable {W Sel Time Info : Type}

/-- The method `func (f *MetricsClient) GetResourceMetric`. -/
def MetricsClient.GetResourceMetric (f : MetricsClient W Sel Time Info)
    (resource namespace_ : String) (selector : Sel) (s : World W Sel) :
    (Info × Time × Option GoError) × World W Sel :=
  let r := f.GetResourceMetricReactor resource namespace_ selector s.reactorWorld
  (r.1, { reactorWorld := r.2
          reactorCalls := s.reactorCalls ++
            [ReactorCall.GetResourceMetricReactor resource namespace_ selector] })

/-- The method `func (f *MetricsClient) GetRawMetric`. -/
def MetricsClient.GetRawMetric (f : MetricsClient W Sel Time Info)
    (metricName namespace_ : String) (selector metricSelector : Sel) (s : World W Sel) :
    (Info × Time × Option GoError) × World W Sel :=
  let r := f.GetRawMetricReactor metricName namespace_ selector metricSelector s.reactorWorld
  (r.1, { reactorWorld := r.2
          reactorCalls := s.reactorCalls ++
            [ReactorCall.GetRawMetricReactor metricName namespace_ selector metricSelector] })

/-- The method `func (f *MetricsClient) GetObjectMetric`. -/
def MetricsClient.GetObjectMetric (f : MetricsClient W Sel Time Info)
    (metricName namespace_ : String) (objectRef : Option CrossVersionObjectReference)
    (metricSelector : Sel) (s : World W Sel) :
    (Int × Time × Option GoError) × World W Sel :=
  let r := f.GetObjectMetricReactor metricName namespace_ objectRef metricSelector s.reactorWorld
  (r.1, { reactorWorld := r.2
          reactorCalls := s.reactorCalls ++
            [ReactorCall.GetObjectMetricReactor metricName namespace_ objectRef metricSelector] })

/-- The method `func (f *MetricsClient) GetExternalMetric`. -/
def MetricsClient.GetExternalMetric (f : MetricsClient W Sel Time Info)
    (metricName namespace_ : String) (selector : Sel) (s : World W Sel) :
    (List Int × Time × Option GoError) × World W Sel :=
  let r := f.GetExternalMetricReactor metricName namespace_ selector s.reactorWorld
  (r.1, { reactorWorld := r.2
          reactorCalls := s.reactorCalls ++
            [ReactorCall.GetExternalMetricReactor metricName namespace_ selector] })

/-- The fake used as a `metricsclient.Client` interface value: Go satisfies the
interface with the four methods of `*MetricsClient`. -/
def MetricsClient.asClient (f : MetricsClient W Sel Time Info) :
    metricsclient.Client (World W Sel) Sel Time Info where
  GetResourceMetric := f.GetResourceMetric
  GetRawMetric := f.GetRawMetric
  GetObjectMetric := f.GetObjectMetric
  GetExternalMetric := f.GetExternalMetric

end fake

/-! ## Concrete clients used to instantiate the theorems

The world is a counter of the calls served so far, selectors are strings and
timestamps are numbers. -/

namespace demo

/-- A metrics client that answers every call with value `v` and error `err`; the
timestamp it reports is `1000` plus the number of calls served before. -/
def metricsClient (v : Int) (err : Option GoError) : metricsclient.Client Nat String Nat Unit where
  GetResourceMetric := fun _ _ _ w => (((), 1000 + w, err), w + 1)
  GetRawMetric := fun _ _ _ _ w => (((), 1000 + w, err), w + 1)
  GetObjectMetric := fun _ _ _ _ w => ((v, 1000 + w, err), w + 1)
  GetExternalMetric := fun _ _ _ w => (([v], 1000 + w, err), w + 1)

/-- A metrics client that serves object metrics for the metric selector `sel` only
and fails for every other selector. -/
def selectiveClient (sel : String) (v : Int) : metricsclient.Client Nat String Nat Unit where
  GetResourceMetric := fun _ _ _ w => (((), 1000 + w, none), w + 1)
  GetRawMetric := fun _ _ _ _ w => (((), 1000 + w, none), w + 1)
  GetObjectMetric := fun _ _ _ metricSelector w =>
    if metricSelector = sel then ((v, 1000 + w, none), w + 1)
    else ((0, 0, some (GoError.errorString "no metrics for selector")), w + 1)
  GetExternalMetric := fun _ _ _ w => (([v], 1000 + w, none), w + 1)

/-- A ready-pod counter that answers every call with count `n` and error `err`. -/
def readyCounter (n : Int) (err : Option GoError) : podutil.PodReadyCounter Nat String where
  GetReadyPodsCount := fun _ _ w => ((n, err), w + 1)

/-- A ready-pod counter that counts pods for the pod selector `sel` only. -/
def selectiveCounter (sel : String) (n : Int) : podutil.PodReadyCounter Nat String where
  GetReadyPodsCount := fun _ podSelector w =>
    if podSelector = sel then ((n, none), w + 1)
    else ((0, some (GoError.errorString "no pods for selector")), w + 1)

/-- A fresh machine around the two given clients. -/
def machine (m : metricsclient.Client Nat String Nat Unit) (p : podutil.PodReadyCounter Nat String) :
    object.Machine Nat String Nat Unit :=
  { c := { MetricsClient := m, PodReadyCounter := p }, world := 0, calls := [] }

/-- An object reference. -/
def deployment : CrossVersionObjectReference :=
  { Kind := "Deployment", Name := "web", APIVersion := "apps/v1" }

/-- An error of a client. -/
def refused : GoError := GoError.errorString "connection refused"

/-- A fake whose object reactor reports `v`, and whose other reactors fail. -/
def fakeClient (v : Int) : fake.MetricsClient Nat String Nat Unit where
  GetResourceMetricReactor := fun _ _ _ w => (((), 0, some refused), w + 1)
  GetRawMetricReactor := fun _ _ _ _ w => (((), 0, some refused), w + 1)
  GetObjectMetricReactor := fun _ _ _ _ w => ((v, 1000 + w, none), w + 1)
  GetExternalMetricReactor := fun _ _ _ w => (([], 0, some refused), w + 1)

/-- A ready-pod counter living in the world of a fake metrics client; it leaves
that world as it is. -/
def fakeReadyCounter (n : Int) (err : Option GoError) :
    podutil.PodReadyCounter (fake.World Nat String) String where
  GetReadyPodsCount := fun _ _ w => ((n, err), w)

/-- A fresh machine whose metrics client is the fake `f`. -/
def fakeMachine (f : fake.MetricsClient Nat String Nat Unit)
    (p : podutil.PodReadyCounter (fake.World Nat String) String) :
    object.Machine (fake.World Nat String) String Nat Unit :=
  { c := { MetricsClient := f.asClient, PodReadyCounter := p }
    world := { reactorWorld := 0, reactorCalls := [] }
    calls := [] }

end demo

/-! ## Path lemmas: what each branch of the two methods computes -/

namespace object

variable {W Sel Time Info : Type}

/-- Path of `Gather` where `GetObjectMetric` fails and `objectRef` is not nil. -/
theorem Gather_metric_error (metricName namespace_ : String) (ref : CrossVersionObjectReference)
    (podSelector metricSelector : Sel) (s : Machine W Sel Time Info)
    (v : Int) (ts : Time) (e : GoError) (w1 : W)
    (hm : s.c.MetricsClient.GetObjectMetric metricName namespace_ (some ref) metricSelector s.world
      = ((v, ts, some e), w1)) :
    Gather.Gather metricName namespace_ (some ref) podSelector metricSelector s =
      (.returned (none, some (Errorf
        ("unable to get metric " ++ metricName ++ ": " ++ ref.Kind ++ " on " ++ namespace_ ++ " "
          ++ ref.Name ++ ": ") e)),
       { s with
         world := w1
         calls := s.calls ++ [Call.GetObjectMetric metricName namespace_ (some ref) metricSelector] }) := by
  simp [Gather.Gather, Machine.callGetObjectMetric, hm]

/-- Path of `Gather` where `GetObjectMetric` fails and `objectRef` is nil. -/
theorem Gather_metric_error_nil (metricName namespace_ : String)
    (podSelector metricSelector : Sel) (s : Machine W Sel Time Info)
    (v : Int) (ts : Time) (e : GoError) (w1 : W)
    (hm : s.c.MetricsClient.GetObjectMetric metricName namespace_ none metricSelector s.world
      = ((v, ts, some e), w1)) :
    Gather.Gather metricName namespace_ none podSelector metricSelector s =
      (.nilDereference,
       { s with
         world := w1
         calls := s.calls ++ [Call.GetObjectMetric metricName namespace_ none metricSelector] }) := by
  simp [Gather.Gather, Machine.callGetObjectMetric, hm]

/-- Path of `Gather` where `GetObjectMetric` succeeds and `GetReadyPodsCount` fails. -/
theorem Gather_ready_error (metricName namespace_ : String)
    (objectRef : Option CrossVersionObjectReference)
    (podSelector metricSelector : Sel) (s : Machine W Sel Time Info)
    (v : Int) (ts : Time) (w1 : W) (n : Int) (e : GoError) (w2 : W)
    (hm : s.c.MetricsClient.GetObjectMetric metricName namespace_ objectRef metricSelector s.world
      = ((v, ts, none), w1))
    (hr : s.c.PodReadyCounter.GetReadyPodsCount namespace_ podSelector w1 = ((n, some e), w2)) :
    Gather.Gather metricName namespace_ objectRef podSelector metricSelector s =
      (.returned (none, some (Errorf "unable to calculate ready pods: " e)),
       { s with
         world := w2
         calls := s.calls ++ [Call.GetObjectMetric metricName namespace_ objectRef metricSelector,
           Call.GetReadyPodsCount namespace_ podSelector] }) := by
  simp [Gather.Gather, Machine.callGetObjectMetric, Machine.callGetReadyPodsCount, hm, hr]

/-- Path of `Gather` where both clients succeed. -/
theorem Gather_ok (metricName namespace_ : String)
    (objectRef : Option CrossVersionObjectReference)
    (podSelector metricSelector : Sel) (s : Machine W Sel Time Info)
    (v : Int) (ts : Time) (w1 : W) (n : Int) (w2 : W)
    (hm : s.c.MetricsClient.GetObjectMetric metricName namespace_ objectRef metricSelector s.world
      = ((v, ts, none), w1))
    (hr : s.c.PodReadyCounter.GetReadyPodsCount namespace_ podSelector w1 = ((n, none), w2)) :
    Gather.Gather metricName namespace_ objectRef podSelector metricSelector s =
      (.returned (some
        { Current := { Value := some v, AverageValue := none }
          ReadyPodCount := some n
          Timestamp := ts }, none),
       { s with
         world := w2
         calls := s.calls ++ [Call.GetObjectMetric metricName namespace_ objectRef metricSelector,
           Call.GetReadyPodsCount namespace_ podSelector] }) := by
  simp [Gather.Gather, Machine.callGetObjectMetric, Machine.callGetReadyPodsCount, hm, hr]

/-- Path of `GatherPerPod` where `GetObjectMetric` fails and `objectRef` is not nil. -/
theorem GatherPerPod_metric_error (metricName namespace_ : String)
    (ref : CrossVersionObjectReference) (metricSelector : Sel) (s : Machine W Sel Time Info)
    (v : Int) (ts : Time) (e : GoError) (w1 : W)
    (hm : s.c.MetricsClient.GetObjectMetric metricName namespace_ (some ref) metricSelector s.world
      = ((v, ts, some e), w1)) :
    Gather.GatherPerPod metricName namespace_ (some ref) metricSelector s =
      (.returned (none, some (Errorf
        ("unable to get metric " ++ metricName ++ ": " ++ ref.Kind ++ " on " ++ namespace_ ++ " "
          ++ ref.Name ++ "/") e)),
       { s with
         world := w1
         calls := s.calls ++ [Call.GetObjectMetric metricName namespace_ (some ref) metricSelector] }) := by
  simp [Gather.GatherPerPod, Machine.callGetObjectMetric, hm]

/-- Path of `GatherPerPod` where `GetObjectMetric` fails and `objectRef` is nil. -/
theorem GatherPerPod_metric_error_nil (metricName namespace_ : String)
    (metricSelector : Sel) (s : Machine W Sel Time Info)
    (v : Int) (ts : Time) (e : GoError) (w1 : W)
    (hm : s.c.MetricsClient.GetObjectMetric metricName namespace_ none metricSelector s.world
      = ((v, ts, some e), w1)) :
    Gather.GatherPerPod metricName namespace_ none metricSelector s =
      (.nilDereference,
       { s with
         world := w1
         calls := s.calls ++ [Call.GetObjectMetric metricName namespace_ none metricSelector] }) := by
  simp [Gather.GatherPerPod, Machine.callGetObjectMetric, hm]

/-- Path of `GatherPerPod` where `GetObjectMetric` succeeds. -/
theorem GatherPerPod_ok (metricName namespace_ : String)
    (objectRef : Option CrossVersionObjectReference) (metricSelector : Sel)
    (s : Machine W Sel Time Info) (v : Int) (ts : Time) (w1 : W)
    (hm : s.c.MetricsClient.GetObjectMetric metricName namespace_ objectRef metricSelector s.world
      = ((v, ts, none), w1)) :
    Gather.GatherPerPod metricName namespace_ objectRef metricSelector s =
      (.returned (some
        { Current := { Value := none, AverageValue := some v }
          ReadyPodCount := none
          Timestamp := ts }, none),
       { s with
         world := w1
         calls := s.calls ++ [Call.GetObjectMetric metricName namespace_ objectRef metricSelector] }) := by
  simp [Gather.GatherPerPod, Machine.callGetObjectMetric, hm]

/-- Every response of a client is of the shape `((v, ts, err), w)`. -/
theorem metric_response_shape (r : (Int × Time × Option GoError) × W) :
    ∃ v ts err w, r = ((v, ts, err), w) :=
  ⟨r.1.1, r.1.2.1, r.1.2.2, r.2, rfl⟩

/-- Every response of a ready counter is of the shape `((n, err), w)`. -/
theorem ready_response_shape (r : (Int × Option GoError) × W) :
    ∃ n err w, r = ((n, err), w) :=
  ⟨r.1.1, r.1.2, r.2, rfl⟩

/-! ## The claims -/

/-- C1. Success postcondition of `Gather`: when `GetObjectMetric` returns
`(v, ts, nil)` and `GetReadyPodsCount` then returns `(n, nil)`, `Gather` returns a
nil error and a metric whose `Current.Value` is `v`, whose `Current.AverageValue`
is unset, whose `ReadyPodCount` is `n` (whatever `n` is, zero included) and whose
`Timestamp` is `ts`; the metric holds nothing else. -/
theorem gather_success_postcondition (metricName namespace_ : String)
    (objectRef : Option CrossVersionObjectReference)
    (podSelector metricSelector : Sel) (s : Machine W Sel Time Info)
    (v : Int) (ts : Time) (w1 : W) (n : Int) (w2 : W)
    (hm : s.c.MetricsClient.GetObjectMetric metricName namespace_ objectRef metricSelector s.world
      = ((v, ts, none), w1))
    (hr : s.c.PodReadyCounter.GetReadyPodsCount namespace_ podSelector w1 = ((n, none), w2)) :
    (Gather.Gather metricName namespace_ objectRef podSelector metricSelector s).1 =
      .returned (some
        { Current := { Value := some v, AverageValue := none }
          ReadyPodCount := some n
          Timestamp := ts }, none) := by
  rw [Gather_ok metricName namespace_ objectRef podSelector metricSelector s v ts w1 n w2 hm hr]

/-- Witness for C1: a metrics client reporting `42` and a ready counter reporting
`0` pods. -/
theorem gather_success_postcondition_witness :
    (Gather.Gather "requests" "default" (some demo.deployment) "app=web" "tier=db"
      (demo.machine (demo.metricsClient 42 none) (demo.readyCounter 0 none))).1 =
      .returned (some
        { Current := { Value := some 42, AverageValue := none }
          ReadyPodCount := some 0
          Timestamp := 1000 }, none) :=
  gather_success_postcondition "requests" "default" (some demo.deployment) "app=web" "tier=db"
    (demo.machine (demo.metricsClient 42 none) (demo.readyCounter 0 none)) 42 1000 1 0 2 rfl rfl

/-- C2, as stated, fails: `GatherPerPod` succeeds on a machine whose ready
counter reports `3` pods for every selector, yet the metric it returns has no
`ReadyPodCount`, and the only interface call it makes is `GetObjectMetric`. -/
theorem gatherPerPod_ready_count_counterexample :
    ∃ m : Metric Nat,
      (Gather.GatherPerPod "requests" "default" (some demo.deployment) "tier=db"
        (demo.machine (demo.metricsClient 42 none) (demo.readyCounter 3 none))).1
        = .returned (some m, none)
      ∧ (∀ podSelector w,
          ((demo.readyCounter 3 none).GetReadyPodsCount "default" podSelector w).1 = (3, none))
      ∧ m.ReadyPodCount ≠ some 3
      ∧ m.ReadyPodCount = none
      ∧ (Gather.GatherPerPod "requests" "default" (some demo.deployment) "tier=db"
        (demo.machine (demo.metricsClient 42 none) (demo.readyCounter 3 none))).2.calls
        = [Call.GetObjectMetric "requests" "default" (some demo.deployment) "tier=db"] :=
  ⟨{ Current := { Value := none, AverageValue := some 42 }, ReadyPodCount := none,
     Timestamp := 1000 },
   rfl, fun _ _ => rfl, by simp, rfl, rfl⟩

/-- C2, amended. `GatherPerPod` does not consult the readiness capability: on
every input on which it returns a metric, the `ReadyPodCount` of that metric is
unset, `GetReadyPodsCount` is not invoked (the only call logged is the one
`GetObjectMetric`), and the outside world is left as that one call left it. -/
theorem gatherPerPod_leaves_ready_count_unset (metricName namespace_ : String)
    (objectRef : Option CrossVersionObjectReference) (metricSelector : Sel)
    (s : Machine W Sel Time Info) (m : Metric Time) (e : Option GoError)
    (h : (Gather.GatherPerPod metricName namespace_ objectRef metricSelector s).1
      = .returned (some m, e)) :
    m.ReadyPodCount = none
    ∧ (Gather.GatherPerPod metricName namespace_ objectRef metricSelector s).2.calls
      = s.calls ++ [Call.GetObjectMetric metricName namespace_ objectRef metricSelector]
    ∧ (Gather.GatherPerPod metricName namespace_ objectRef metricSelector s).2.world
      = (s.c.MetricsClient.GetObjectMetric metricName namespace_ objectRef metricSelector
          s.world).2 := by
  obtain ⟨v, ts, err, w1, hm⟩ := metric_response_shape
    (s.c.MetricsClient.GetObjectMetric metricName namespace_ objectRef metricSelector s.world)
  cases err with
  | none =>
    rw [GatherPerPod_ok metricName namespace_ objectRef metricSelector s v ts w1 hm] at h ⊢
    simp only [Outcome.returned.injEq, Prod.mk.injEq, Option.some.injEq] at h
    rw [hm, ← h.1]
    exact ⟨rfl, rfl, rfl⟩
  | some err =>
    cases objectRef with
    | none =>
      rw [GatherPerPod_metric_error_nil metricName namespace_ metricSelector s v ts err w1 hm] at h
      cases h
    | some ref =>
      rw [GatherPerPod_metric_error metricName namespace_ ref metricSelector s v ts err w1 hm] at h
      simp at h

/-- Witness for the amended C2. -/
theorem gatherPerPod_leaves_ready_count_unset_witness :
    (({ Current := { Value := none, AverageValue := some 42 }, ReadyPodCount := none,
        Timestamp := 1000 } : Metric Nat).ReadyPodCount = none)
    ∧ (Gather.GatherPerPod "requests" "default" (some demo.deployment) "tier=db"
        (demo.machine (demo.metricsClient 42 none) (demo.readyCounter 3 none))).2.calls
      = [] ++ [Call.GetObjectMetric "requests" "default" (some demo.deployment) "tier=db"]
    ∧ (Gather.GatherPerPod "requests" "default" (some demo.deployment) "tier=db"
        (demo.machine (demo.metricsClient 42 none) (demo.readyCounter 3 none))).2.world
      = 1 :=
  gatherPerPod_leaves_ready_count_unset "requests" "default" (some demo.deployment) "tier=db"
    (demo.machine (demo.metricsClient 42 none) (demo.readyCounter 3 none))
    { Current := { Value := none, AverageValue := some 42 }, ReadyPodCount := none,
      Timestamp := 1000 } none rfl

/-- C3. A failure of the metrics client is propagated wrapped with the identity
of the metric: for a non-nil `objectRef`, when `GetObjectMetric` returns the error
`e`, both `Gather` and `GatherPerPod` return a nil metric and an error that
unwraps to `e`, with message `unable to get metric <metricName>: <Kind> on
<namespace> <Name>: <e>` for `Gather` and `unable to get metric <metricName>: <Kind>
on <namespace> <Name>/<e>` for `GatherPerPod`. -/
theorem metrics_client_failure_wrapped (metricName namespace_ : String)
    (ref : CrossVersionObjectReference) (podSelector metricSelector : Sel)
    (s : Machine W Sel Time Info) (v : Int) (ts : Time) (e : GoError) (w1 : W)
    (hm : s.c.MetricsClient.GetObjectMetric metricName namespace_ (some ref) metricSelector s.world
      = ((v, ts, some e), w1)) :
    (∃ err : GoError,
      (Gather.Gather metricName namespace_ (some ref) podSelector metricSelector s).1
        = .returned (none, some err)
      ∧ err.Unwrap = some e
      ∧ err.Error = "unable to get metric " ++ metricName ++ ": " ++ ref.Kind ++ " on "
          ++ namespace_ ++ " " ++ ref.Name ++ ": " ++ e.Error)
    ∧ (∃ err : GoError,
      (Gather.GatherPerPod metricName namespace_ (some ref) metricSelector s).1
        = .returned (none, some err)
      ∧ err.Unwrap = some e
      ∧ err.Error = "unable to get metric " ++ metricName ++ ": " ++ ref.Kind ++ " on "
          ++ namespace_ ++ " " ++ ref.Name ++ "/" ++ e.Error) := by
  constructor
  · rw [Gather_metric_error metricName namespace_ ref podSelector metricSelector s v ts e w1 hm]
    exact ⟨_, rfl, rfl, rfl⟩
  · rw [GatherPerPod_metric_error metricName namespace_ ref metricSelector s v ts e w1 hm]
    exact ⟨_, rfl, rfl, rfl⟩

/-- Witness for C3: the metrics client refuses the connection. -/
theorem metrics_client_failure_wrapped_witness :
    (∃ err : GoError,
      (Gather.Gather "requests" "default" (some demo.deployment) "app=web" "tier=db"
        (demo.machine (demo.metricsClient 0 (some demo.refused)) (demo.readyCounter 3 none))).1
        = .returned (none, some err)
      ∧ err.Unwrap = some demo.refused
      ∧ err.Error = "unable to get metric " ++ "requests" ++ ": " ++ demo.deployment.Kind ++ " on "
          ++ "default" ++ " " ++ demo.deployment.Name ++ ": " ++ demo.refused.Error)
    ∧ (∃ err : GoError,
      (Gather.GatherPerPod "requests" "default" (some demo.deployment) "tier=db"
        (demo.machine (demo.metricsClient 0 (some demo.refused)) (demo.readyCounter 3 none))).1
        = .returned (none, some err)
      ∧ err.Unwrap = some demo.refused
      ∧ err.Error = "unable to get metric " ++ "requests" ++ ": " ++ demo.deployment.Kind ++ " on "
          ++ "default" ++ " " ++ demo.deployment.Name ++ "/" ++ demo.refused.Error) :=
  metrics_client_failure_wrapped "requests" "default" demo.deployment "app=web" "tier=db"
    (demo.machine (demo.metricsClient 0 (some demo.refused)) (demo.readyCounter 3 none))
    0 1000 demo.refused 1 rfl

/-- C4, as stated, fails: with metric name `requests` and object reference
`Deployment`/`web`, a readiness failure `connection refused` gives the error
`unable to calculate ready pods: connection refused`, which unwraps to the
client error but names neither the metric nor the kind nor the name of the
object. -/
theorem readiness_failure_names_no_identity_counterexample :
    ∃ err : GoError,
      (Gather.Gather "requests" "default" (some demo.deployment) "app=web" "tier=db"
        (demo.machine (demo.metricsClient 42 none) (demo.readyCounter 0 (some demo.refused)))).1
        = .returned (none, some err)
      ∧ err.Unwrap = some demo.refused
      ∧ err.Error = "unable to calculate ready pods: connection refused"
      ∧ ¬ occursIn "requests" err.Error
      ∧ ¬ occursIn demo.deployment.Kind err.Error
      ∧ ¬ occursIn demo.deployment.Name err.Error :=
  ⟨Errorf "unable to calculate ready pods: " demo.refused, rfl, rfl, by decide, by decide,
    by decide, by decide⟩

/-- C4, amended. A failure of the readiness client is propagated wrapped: on
every input, when `GetObjectMetric` succeeds and `GetReadyPodsCount` returns the
error `e`, `Gather` returns a nil metric and an error that unwraps to `e` and whose
message is `unable to calculate ready pods: ` followed by the message of `e`. -/
theorem readiness_failure_wrapped (metricName namespace_ : String)
    (objectRef : Option CrossVersionObjectReference) (podSelector metricSelector : Sel)
    (s : Machine W Sel Time Info) (v : Int) (ts : Time) (w1 : W) (n : Int) (e : GoError) (w2 : W)
    (hm : s.c.MetricsClient.GetObjectMetric metricName namespace_ objectRef metricSelector s.world
      = ((v, ts, none), w1))
    (hr : s.c.PodReadyCounter.GetReadyPodsCount namespace_ podSelector w1 = ((n, some e), w2)) :
    ∃ err : GoError,
      (Gather.Gather metricName namespace_ objectRef podSelector metricSelector s).1
        = .returned (none, some err)
      ∧ err.Unwrap = some e
      ∧ err.Error = "unable to calculate ready pods: " ++ e.Error := by
  rw [Gather_ready_error metricName namespace_ objectRef podSelector metricSelector s v ts w1 n e
    w2 hm hr]
  exact ⟨_, rfl, rfl, rfl⟩

/-- Witness for the amended C4, with a nil object reference. -/
theorem readiness_failure_wrapped_witness :
    ∃ err : GoError,
      (Gather.Gather "requests" "default" none "app=web" "tier=db"
        (demo.machine (demo.metricsClient 42 none) (demo.readyCounter 0 (some demo.refused)))).1
        = .returned (none, some err)
      ∧ err.Unwrap = some demo.refused
      ∧ err.Error = "unable to calculate ready pods: " ++ demo.refused.Error :=
  readiness_failure_wrapped "requests" "default" none "app=web" "tier=db"
    (demo.machine (demo.metricsClient 42 none) (demo.readyCounter 0 (some demo.refused)))
    42 1000 1 0 demo.refused 2 rfl rfl

/-- C5. No swallowed errors and no partial snapshots, for a non-nil `objectRef`:
`Gather` returns a pair `(m, e)` in which `e` is nil exactly when `GetObjectMetric`
and the `GetReadyPodsCount` call that follows it both return a nil error;
`GatherPerPod` returns a pair in which `e` is nil exactly when `GetObjectMetric`
returns a nil error; and in both the metric `m` is non-nil exactly when `e` is
nil. -/
theorem no_swallowed_errors_no_partial_snapshots (metricName namespace_ : String)
    (ref : CrossVersionObjectReference) (podSelector metricSelector : Sel)
    (s : Machine W Sel Time Info) :
    (∃ (m : Option (Metric Time)) (e : Option GoError),
      (Gather.Gather metricName namespace_ (some ref) podSelector metricSelector s).1
        = .returned (m, e)
      ∧ (e = none ↔
          (s.c.MetricsClient.GetObjectMetric metricName namespace_ (some ref) metricSelector
              s.world).1.2.2 = none
          ∧ (s.c.PodReadyCounter.GetReadyPodsCount namespace_ podSelector
              (s.c.MetricsClient.GetObjectMetric metricName namespace_ (some ref) metricSelector
                s.world).2).1.2 = none)
      ∧ (m ≠ none ↔ e = none))
    ∧ (∃ (m : Option (Metric Time)) (e : Option GoError),
      (Gather.GatherPerPod metricName namespace_ (some ref) metricSelector s).1
        = .returned (m, e)
      ∧ (e = none ↔
          (s.c.MetricsClient.GetObjectMetric metricName namespace_ (some ref) metricSelector
              s.world).1.2.2 = none)
      ∧ (m ≠ none ↔ e = none)) := by
  obtain ⟨v, ts, err, w1, hm⟩ := metric_response_shape
    (s.c.MetricsClient.GetObjectMetric metricName namespace_ (some ref) metricSelector s.world)
  obtain ⟨n, rerr, w2, hr⟩ := ready_response_shape
    (s.c.PodReadyCounter.GetReadyPodsCount namespace_ podSelector w1)
  cases err with
  | some e =>
    rw [Gather_metric_error metricName namespace_ ref podSelector metricSelector s v ts e w1 hm,
      GatherPerPod_metric_error metricName namespace_ ref metricSelector s v ts e w1 hm, hm]
    exact ⟨⟨none, some _, rfl, by simp, by simp⟩, ⟨none, some _, rfl, by simp, by simp⟩⟩
  | none =>
    rw [GatherPerPod_ok metricName namespace_ (some ref) metricSelector s v ts w1 hm]
    refine ⟨?_, ⟨some _, none, rfl, by simp [hm], by simp⟩⟩
    cases rerr with
    | some e =>
      rw [Gather_ready_error metricName namespace_ (some ref) podSelector metricSelector s v ts
        w1 n e w2 hm hr, hm, hr]
      exact ⟨none, some _, rfl, by simp, by simp⟩
    | none =>
      rw [Gather_ok metricName namespace_ (some ref) podSelector metricSelector s v ts w1 n w2
        hm hr, hm, hr]
      exact ⟨some _, none, rfl, by simp, by simp⟩

/-- C6. No retry inside the gatherer, over the call log.  One `Gather` call
appends to the log exactly one `GetObjectMetric` entry, first, followed by exactly
one `GetReadyPodsCount` entry when the metric fetch returned a nil error and by
nothing when it failed; one `GatherPerPod` call appends exactly one
`GetObjectMetric` entry and nothing else.  The outside world is left as those
calls, made once each, leave it. -/
theorem no_retry_call_log (metricName namespace_ : String)
    (objectRef : Option CrossVersionObjectReference) (podSelector metricSelector : Sel)
    (s : Machine W Sel Time Info) :
    ((Gather.Gather metricName namespace_ objectRef podSelector metricSelector s).2.calls
      = s.calls ++ Call.GetObjectMetric metricName namespace_ objectRef metricSelector ::
          (if (s.c.MetricsClient.GetObjectMetric metricName namespace_ objectRef metricSelector
                s.world).1.2.2.isNone
            then [Call.GetReadyPodsCount namespace_ podSelector] else []))
    ∧ ((Gather.Gather metricName namespace_ objectRef podSelector metricSelector s).2.world
      = (if (s.c.MetricsClient.GetObjectMetric metricName namespace_ objectRef metricSelector
              s.world).1.2.2.isNone
          then (s.c.PodReadyCounter.GetReadyPodsCount namespace_ podSelector
            (s.c.MetricsClient.GetObjectMetric metricName namespace_ objectRef metricSelector
              s.world).2).2
          else (s.c.MetricsClient.GetObjectMetric metricName namespace_ objectRef metricSelector
              s.world).2))
    ∧ ((Gather.GatherPerPod metricName namespace_ objectRef metricSelector s).2.calls
      = s.calls ++ [Call.GetObjectMetric metricName namespace_ objectRef metricSelector])
    ∧ ((Gather.GatherPerPod metricName namespace_ objectRef metricSelector s).2.world
      = (s.c.MetricsClient.GetObjectMetric metricName namespace_ objectRef metricSelector
          s.world).2) := by
  obtain ⟨v, ts, err, w1, hm⟩ := metric_response_shape
    (s.c.MetricsClient.GetObjectMetric metricName namespace_ objectRef metricSelector s.world)
  obtain ⟨n, rerr, w2, hr⟩ := ready_response_shape
    (s.c.PodReadyCounter.GetReadyPodsCount namespace_ podSelector w1)
  cases err with
  | some e =>
    cases objectRef with
    | none =>
      rw [Gather_metric_error_nil metricName namespace_ podSelector metricSelector s v ts e w1 hm,
        GatherPerPod_metric_error_nil metricName namespace_ metricSelector s v ts e w1 hm, hm]
      simp
    | some ref =>
      rw [Gather_metric_error metricName namespace_ ref podSelector metricSelector s v ts e w1 hm,
        GatherPerPod_metric_error metricName namespace_ ref metricSelector s v ts e w1 hm, hm]
      simp
  | none =>
    rw [GatherPerPod_ok metricName namespace_ objectRef metricSelector s v ts w1 hm]
    cases rerr with
    | some e =>
      rw [Gather_ready_error metricName namespace_ objectRef podSelector metricSelector s v ts
        w1 n e w2 hm hr, hm, hr]
      simp
    | none =>
      rw [Gather_ok metricName namespace_ objectRef podSelector metricSelector s v ts w1 n w2
        hm hr, hm, hr]
      simp

/-- C7. The gatherer is a stateless function of its arguments and of the
responses of the clients.  For two machines `s` and `t` (different clients,
worlds and logs allowed): (1) with equal arguments, if `GetObjectMetric` gives the
same response in both and, when that response is a success, `GetReadyPodsCount`
gives the same response in both, then `Gather` gives the same result in both;
(2) likewise for `GatherPerPod` and the response of `GetObjectMetric`; (3) with
arbitrary, different arguments, if the responses are `(v, ts, nil)` and `(n, nil)`
in both, `Gather` gives the same result in both, and (4) if the response is
`(v, ts, nil)` in both, so does `GatherPerPod`; (5) neither method changes the
struct its receiver points to. -/
theorem gatherer_stateless (metricName namespace_ : String)
    (objectRef : Option CrossVersionObjectReference) (podSelector metricSelector : Sel)
    (metricName' namespace_' : String)
    (objectRef' : Option CrossVersionObjectReference) (podSelector' metricSelector' : Sel)
    (s t : Machine W Sel Time Info) :
    ((s.c.MetricsClient.GetObjectMetric metricName namespace_ objectRef metricSelector s.world).1
        = (t.c.MetricsClient.GetObjectMetric metricName namespace_ objectRef metricSelector
            t.world).1 →
      ((s.c.MetricsClient.GetObjectMetric metricName namespace_ objectRef metricSelector
          s.world).1.2.2 = none →
        (s.c.PodReadyCounter.GetReadyPodsCount namespace_ podSelector
          (s.c.MetricsClient.GetObjectMetric metricName namespace_ objectRef metricSelector
            s.world).2).1
        = (t.c.PodReadyCounter.GetReadyPodsCount namespace_ podSelector
          (t.c.MetricsClient.GetObjectMetric metricName namespace_ objectRef metricSelector
            t.world).2).1) →
      (Gather.Gather metricName namespace_ objectRef podSelector metricSelector s).1
        = (Gather.Gather metricName namespace_ objectRef podSelector metricSelector t).1)
    ∧ ((s.c.MetricsClient.GetObjectMetric metricName namespace_ objectRef metricSelector s.world).1
        = (t.c.MetricsClient.GetObjectMetric metricName namespace_ objectRef metricSelector
            t.world).1 →
      (Gather.GatherPerPod metricName namespace_ objectRef metricSelector s).1
        = (Gather.GatherPerPod metricName namespace_ objectRef metricSelector t).1)
    ∧ (∀ (v : Int) (ts : Time) (n : Int),
      (s.c.MetricsClient.GetObjectMetric metricName namespace_ objectRef metricSelector s.world).1
        = (v, ts, none) →
      (t.c.MetricsClient.GetObjectMetric metricName' namespace_' objectRef' metricSelector'
        t.world).1 = (v, ts, none) →
      (s.c.PodReadyCounter.GetReadyPodsCount namespace_ podSelector
        (s.c.MetricsClient.GetObjectMetric metricName namespace_ objectRef metricSelector
          s.world).2).1 = (n, none) →
      (t.c.PodReadyCounter.GetReadyPodsCount namespace_' podSelector'
        (t.c.MetricsClient.GetObjectMetric metricName' namespace_' objectRef' metricSelector'
          t.world).2).1 = (n, none) →
      (Gather.Gather metricName namespace_ objectRef podSelector metricSelector s).1
        = (Gather.Gather metricName' namespace_' objectRef' podSelector' metricSelector' t).1)
    ∧ (∀ (v : Int) (ts : Time),
      (s.c.MetricsClient.GetObjectMetric metricName namespace_ objectRef metricSelector s.world).1
        = (v, ts, none) →
      (t.c.MetricsClient.GetObjectMetric metricName' namespace_' objectRef' metricSelector'
        t.world).1 = (v, ts, none) →
      (Gather.GatherPerPod metricName namespace_ objectRef metricSelector s).1
        = (Gather.GatherPerPod metricName' namespace_' objectRef' metricSelector' t).1)
    ∧ (Gather.Gather metricName namespace_ objectRef podSelector metricSelector s).2.c = s.c
    ∧ (Gather.GatherPerPod metricName namespace_ objectRef metricSelector s).2.c = s.c := by
  obtain ⟨v, ts, err, w1, hm⟩ := metric_response_shape
    (s.c.MetricsClient.GetObjectMetric metricName namespace_ objectRef metricSelector s.world)
  obtain ⟨n, rerr, w2, hr⟩ := ready_response_shape
    (s.c.PodReadyCounter.GetReadyPodsCount namespace_ podSelector w1)
  obtain ⟨v1, ts1, err1, u1, hm1⟩ := metric_response_shape
    (t.c.MetricsClient.GetObjectMetric metricName namespace_ objectRef metricSelector t.world)
  obtain ⟨n1, rerr1, u2, hr1⟩ := ready_response_shape
    (t.c.PodReadyCounter.GetReadyPodsCount namespace_ podSelector u1)
  obtain ⟨v2, ts2, err2, x1, hm2⟩ := metric_response_shape
    (t.c.MetricsClient.GetObjectMetric metricName' namespace_' objectRef' metricSelector' t.world)
  obtain ⟨n2, rerr2, x2, hr2⟩ := ready_response_shape
    (t.c.PodReadyCounter.GetReadyPodsCount namespace_' podSelector' x1)
  refine ⟨?_, ?_, ?_, ?_, ?_, ?_⟩
  · rw [hm, hm1, hr, hr1]
    intro h1 h2
    simp only [Prod.mk.injEq] at h1
    obtain ⟨rfl, rfl, rfl⟩ := h1
    cases err with
    | some e =>
      cases objectRef with
      | none =>
        rw [Gather_metric_error_nil metricName namespace_ podSelector metricSelector s v ts e w1
          hm, Gather_metric_error_nil metricName namespace_ podSelector metricSelector t v ts e u1
          hm1]
      | some ref =>
        rw [Gather_metric_error metricName namespace_ ref podSelector metricSelector s v ts e w1
          hm, Gather_metric_error metricName namespace_ ref podSelector metricSelector t v ts e u1
          hm1]
    | none =>
      have h3 := h2 rfl
      simp only [Prod.mk.injEq] at h3
      obtain ⟨rfl, rfl⟩ := h3
      cases rerr with
      | some e =>
        rw [Gather_ready_error metricName namespace_ objectRef podSelector metricSelector s v ts
          w1 n e w2 hm hr, Gather_ready_error metricName namespace_ objectRef podSelector
          metricSelector t v ts u1 n e u2 hm1 hr1]
      | none =>
        rw [Gather_ok metricName namespace_ objectRef podSelector metricSelector s v ts w1 n w2
          hm hr, Gather_ok metricName namespace_ objectRef podSelector metricSelector t v ts u1 n
          u2 hm1 hr1]
  · rw [hm, hm1]
    intro h1
    simp only [Prod.mk.injEq] at h1
    obtain ⟨rfl, rfl, rfl⟩ := h1
    cases err with
    | some e =>
      cases objectRef with
      | none =>
        rw [GatherPerPod_metric_error_nil metricName namespace_ metricSelector s v ts e w1 hm,
          GatherPerPod_metric_error_nil metricName namespace_ metricSelector t v ts e u1 hm1]
      | some ref =>
        rw [GatherPerPod_metric_error metricName namespace_ ref metricSelector s v ts e w1 hm,
          GatherPerPod_metric_error metricName namespace_ ref metricSelector t v ts e u1 hm1]
    | none =>
      rw [GatherPerPod_ok metricName namespace_ objectRef metricSelector s v ts w1 hm,
        GatherPerPod_ok metricName namespace_ objectRef metricSelector t v ts u1 hm1]
  · intro a b k
    rw [hm, hm2, hr, hr2]
    intro h1 h2 h3 h4
    simp only [Prod.mk.injEq] at h1 h2 h3 h4
    obtain ⟨rfl, rfl, rfl⟩ := h1
    obtain ⟨rfl, rfl, rfl⟩ := h2
    obtain ⟨rfl, rfl⟩ := h3
    obtain ⟨rfl, rfl⟩ := h4
    rw [Gather_ok metricName namespace_ objectRef podSelector metricSelector s _ _ w1 _ w2 hm hr,
      Gather_ok metricName' namespace_' objectRef' podSelector' metricSelector' t _ _ x1 _ x2
        hm2 hr2]
  · intro a b
    rw [hm, hm2]
    intro h1 h2
    simp only [Prod.mk.injEq] at h1 h2
    obtain ⟨rfl, rfl, rfl⟩ := h1
    obtain ⟨rfl, rfl, rfl⟩ := h2
    rw [GatherPerPod_ok metricName namespace_ objectRef metricSelector s _ _ w1 hm,
      GatherPerPod_ok metricName' namespace_' objectRef' metricSelector' t _ _ x1 hm2]
  · cases err with
    | some e =>
      cases objectRef with
      | none =>
        rw [Gather_metric_error_nil metricName namespace_ podSelector metricSelector s v ts e w1
          hm]
      | some ref =>
        rw [Gather_metric_error metricName namespace_ ref podSelector metricSelector s v ts e w1
          hm]
    | none =>
      cases rerr with
      | some e =>
        rw [Gather_ready_error metricName namespace_ objectRef podSelector metricSelector s v ts
          w1 n e w2 hm hr]
      | none =>
        rw [Gather_ok metricName namespace_ objectRef podSelector metricSelector s v ts w1 n w2
          hm hr]
  · cases err with
    | some e =>
      cases objectRef with
      | none =>
        rw [GatherPerPod_metric_error_nil metricName namespace_ metricSelector s v ts e w1 hm]
      | some ref =>
        rw [GatherPerPod_metric_error metricName namespace_ ref metricSelector s v ts e w1 hm]
    | none =>
      rw [GatherPerPod_ok metricName namespace_ objectRef metricSelector s v ts w1 hm]

/-- Witness for C7: a client that answers every call and a client that answers
only for one selector return the same responses here; the second pair of
arguments differs from the first in metric name, namespace and object
reference. -/
theorem gatherer_stateless_witness :
    (Gather.Gather "requests" "default" (some demo.deployment) "app=web" "tier=db"
        (demo.machine (demo.metricsClient 42 none) (demo.readyCounter 3 none))).1
      = (Gather.Gather "requests" "default" (some demo.deployment) "app=web" "tier=db"
        (demo.machine (demo.selectiveClient "tier=db" 42) (demo.selectiveCounter "app=web" 3))).1
    ∧ (Gather.GatherPerPod "requests" "default" (some demo.deployment) "tier=db"
        (demo.machine (demo.metricsClient 42 none) (demo.readyCounter 3 none))).1
      = (Gather.GatherPerPod "requests" "default" (some demo.deployment) "tier=db"
        (demo.machine (demo.selectiveClient "tier=db" 42) (demo.selectiveCounter "app=web" 3))).1
    ∧ (Gather.Gather "requests" "default" (some demo.deployment) "app=web" "tier=db"
        (demo.machine (demo.metricsClient 42 none) (demo.readyCounter 3 none))).1
      = (Gather.Gather "latency" "prod" none "app=web" "tier=db"
        (demo.machine (demo.selectiveClient "tier=db" 42) (demo.selectiveCounter "app=web" 3))).1
    ∧ (Gather.GatherPerPod "requests" "default" (some demo.deployment) "tier=db"
        (demo.machine (demo.metricsClient 42 none) (demo.readyCounter 3 none))).1
      = (Gather.GatherPerPod "latency" "prod" none "tier=db"
        (demo.machine (demo.selectiveClient "tier=db" 42) (demo.selectiveCounter "app=web" 3))).1 :=
  have h := gatherer_stateless "requests" "default" (some demo.deployment) "app=web" "tier=db"
    "latency" "prod" none "app=web" "tier=db"
    (demo.machine (demo.metricsClient 42 none) (demo.readyCounter 3 none))
    (demo.machine (demo.selectiveClient "tier=db" 42) (demo.selectiveCounter "app=web" 3))
  ⟨h.1 rfl (fun _ => rfl), h.2.1 rfl, h.2.2.1 42 1000 3 rfl rfl rfl rfl,
    h.2.2.2.1 42 1000 rfl rfl⟩

/-- C8. Argument routing.  `Gather` calls `GetObjectMetric` with exactly
`(metricName, namespace, objectRef, metricSelector)` and, when that call returns a
nil error, `GetReadyPodsCount` with exactly `(namespace, podSelector)`:
the log grows by exactly these entries, in this order; the world is left as the
clients applied to these tuples leave it; and the result is built from the
responses at these tuples (the value and timestamp of the one, the count or the
error of the other).  `GatherPerPod` calls `GetObjectMetric` with exactly
`(metricName, namespace, objectRef, metricSelector)` and nothing else.  The clients
are consulted at no other tuple: replacing them by clients `mc` and `prc` that
agree with them at these tuples, and may differ at every other (such as one
with the two selectors exchanged), changes neither the result, nor the world
left behind, nor the log of either method. -/
theorem argument_routing (metricName namespace_ : String)
    (objectRef : Option CrossVersionObjectReference) (podSelector metricSelector : Sel)
    (s : Machine W Sel Time Info)
    (mc : metricsclient.Client W Sel Time Info) (prc : podutil.PodReadyCounter W Sel)
    (hmc : mc.GetObjectMetric metricName namespace_ objectRef metricSelector s.world
      = s.c.MetricsClient.GetObjectMetric metricName namespace_ objectRef metricSelector s.world)
    (hprc : prc.GetReadyPodsCount namespace_ podSelector
        (s.c.MetricsClient.GetObjectMetric metricName namespace_ objectRef metricSelector
          s.world).2
      = s.c.PodReadyCounter.GetReadyPodsCount namespace_ podSelector
        (s.c.MetricsClient.GetObjectMetric metricName namespace_ objectRef metricSelector
          s.world).2) :
    (((Gather.Gather metricName namespace_ objectRef podSelector metricSelector s).2.calls
        = s.calls ++ Call.GetObjectMetric metricName namespace_ objectRef metricSelector ::
            (if (s.c.MetricsClient.GetObjectMetric metricName namespace_ objectRef metricSelector
                  s.world).1.2.2.isNone
              then [Call.GetReadyPodsCount namespace_ podSelector] else []))
      ∧ ((Gather.Gather metricName namespace_ objectRef podSelector metricSelector s).2.world
        = (if (s.c.MetricsClient.GetObjectMetric metricName namespace_ objectRef metricSelector
                s.world).1.2.2.isNone
            then (s.c.PodReadyCounter.GetReadyPodsCount namespace_ podSelector
              (s.c.MetricsClient.GetObjectMetric metricName namespace_ objectRef metricSelector
                s.world).2).2
            else (s.c.MetricsClient.GetObjectMetric metricName namespace_ objectRef metricSelector
                s.world).2))
      ∧ ((s.c.MetricsClient.GetObjectMetric metricName namespace_ objectRef metricSelector
            s.world).1.2.2 = none →
          (s.c.PodReadyCounter.GetReadyPodsCount namespace_ podSelector
            (s.c.MetricsClient.GetObjectMetric metricName namespace_ objectRef metricSelector
              s.world).2).1.2 = none →
          (Gather.Gather metricName namespace_ objectRef podSelector metricSelector s).1
            = .returned (some
                { Current :=
                    { Value := some (s.c.MetricsClient.GetObjectMetric metricName namespace_
                        objectRef metricSelector s.world).1.1
                      AverageValue := none }
                  ReadyPodCount := some (s.c.PodReadyCounter.GetReadyPodsCount namespace_
                    podSelector (s.c.MetricsClient.GetObjectMetric metricName namespace_
                      objectRef metricSelector s.world).2).1.1
                  Timestamp := (s.c.MetricsClient.GetObjectMetric metricName namespace_
                    objectRef metricSelector s.world).1.2.1 }, none))
      ∧ ((s.c.MetricsClient.GetObjectMetric metricName namespace_ objectRef metricSelector
            s.world).1.2.2 = none →
          ∀ e : GoError,
          (s.c.PodReadyCounter.GetReadyPodsCount namespace_ podSelector
            (s.c.MetricsClient.GetObjectMetric metricName namespace_ objectRef metricSelector
              s.world).2).1.2 = some e →
          (Gather.Gather metricName namespace_ objectRef podSelector metricSelector s).1
            = .returned (none, some (Errorf "unable to calculate ready pods: " e)))
      ∧ ((s.c.MetricsClient.GetObjectMetric metricName namespace_ objectRef metricSelector
            s.world).1.2.2 = none →
          (Gather.GatherPerPod metricName namespace_ objectRef metricSelector s).1
            = .returned (some
                { Current :=
                    { Value := none
                      AverageValue := some (s.c.MetricsClient.GetObjectMetric metricName
                        namespace_ objectRef metricSelector s.world).1.1 }
                  ReadyPodCount := none
                  Timestamp := (s.c.MetricsClient.GetObjectMetric metricName namespace_
                    objectRef metricSelector s.world).1.2.1 }, none))
      ∧ ((Gather.GatherPerPod metricName namespace_ objectRef metricSelector s).2.world
        = (s.c.MetricsClient.GetObjectMetric metricName namespace_ objectRef metricSelector
            s.world).2))
    ∧ (∃ added : List (Call Sel),
      (Gather.Gather metricName namespace_ objectRef podSelector metricSelector s).2.calls
        = s.calls ++ added
      ∧ added.head? = some (Call.GetObjectMetric metricName namespace_ objectRef metricSelector)
      ∧ ∀ call ∈ added,
          call = Call.GetObjectMetric metricName namespace_ objectRef metricSelector
          ∨ call = Call.GetReadyPodsCount namespace_ podSelector)
    ∧ (Gather.GatherPerPod metricName namespace_ objectRef metricSelector s).2.calls
        = s.calls ++ [Call.GetObjectMetric metricName namespace_ objectRef metricSelector]
    ∧ (Gather.Gather metricName namespace_ objectRef podSelector metricSelector
          { s with c := { MetricsClient := mc, PodReadyCounter := prc } }).1
        = (Gather.Gather metricName namespace_ objectRef podSelector metricSelector s).1
    ∧ (Gather.Gather metricName namespace_ objectRef podSelector metricSelector
          { s with c := { MetricsClient := mc, PodReadyCounter := prc } }).2.world
        = (Gather.Gather metricName namespace_ objectRef podSelector metricSelector s).2.world
    ∧ (Gather.Gather metricName namespace_ objectRef podSelector metricSelector
          { s with c := { MetricsClient := mc, PodReadyCounter := prc } }).2.calls
        = (Gather.Gather metricName namespace_ objectRef podSelector metricSelector s).2.calls
    ∧ (Gather.GatherPerPod metricName namespace_ objectRef metricSelector
          { s with c := { MetricsClient := mc, PodReadyCounter := prc } }).1
        = (Gather.GatherPerPod metricName namespace_ objectRef metricSelector s).1
    ∧ (Gather.GatherPerPod metricName namespace_ objectRef metricSelector
          { s with c := { MetricsClient := mc, PodReadyCounter := prc } }).2.world
        = (Gather.GatherPerPod metricName namespace_ objectRef metricSelector s).2.world
    ∧ (Gather.GatherPerPod metricName namespace_ objectRef metricSelector
          { s with c := { MetricsClient := mc, PodReadyCounter := prc } }).2.calls
        = (Gather.GatherPerPod metricName namespace_ objectRef metricSelector s).2.calls := by
  obtain ⟨v, ts, err, w1, hm⟩ := metric_response_shape
    (s.c.MetricsClient.GetObjectMetric metricName namespace_ objectRef metricSelector s.world)
  obtain ⟨n, rerr, w2, hr⟩ := ready_response_shape
    (s.c.PodReadyCounter.GetReadyPodsCount namespace_ podSelector w1)
  rw [hm] at hmc hprc
  rw [hr] at hprc
  have hmc' : ({ s with c := { MetricsClient := mc, PodReadyCounter := prc } }
      : Machine W Sel Time Info).c.MetricsClient.GetObjectMetric metricName namespace_ objectRef
        metricSelector ({ s with c := { MetricsClient := mc, PodReadyCounter := prc } }
      : Machine W Sel Time Info).world = ((v, ts, err), w1) := hmc
  have hprc' : ({ s with c := { MetricsClient := mc, PodReadyCounter := prc } }
      : Machine W Sel Time Info).c.PodReadyCounter.GetReadyPodsCount namespace_ podSelector w1
        = ((n, rerr), w2) := hprc
  cases err with
  | some e =>
    cases objectRef with
    | none =>
      rw [Gather_metric_error_nil metricName namespace_ podSelector metricSelector s v ts e w1 hm,
        GatherPerPod_metric_error_nil metricName namespace_ metricSelector s v ts e w1 hm,
        Gather_metric_error_nil metricName namespace_ podSelector metricSelector _ v ts e w1 hmc',
        GatherPerPod_metric_error_nil metricName namespace_ metricSelector _ v ts e w1 hmc', hm]
      exact ⟨by simp, ⟨_, rfl, rfl, by simp⟩, rfl, rfl, rfl, rfl, rfl, rfl, rfl⟩
    | some ref =>
      rw [Gather_metric_error metricName namespace_ ref podSelector metricSelector s v ts e w1 hm,
        GatherPerPod_metric_error metricName namespace_ ref metricSelector s v ts e w1 hm,
        Gather_metric_error metricName namespace_ ref podSelector metricSelector _ v ts e w1 hmc',
        GatherPerPod_metric_error metricName namespace_ ref metricSelector _ v ts e w1 hmc', hm]
      exact ⟨by simp, ⟨_, rfl, rfl, by simp⟩, rfl, rfl, rfl, rfl, rfl, rfl, rfl⟩
  | none =>
    rw [GatherPerPod_ok metricName namespace_ objectRef metricSelector s v ts w1 hm,
      GatherPerPod_ok metricName namespace_ objectRef metricSelector _ v ts w1 hmc']
    cases rerr with
    | some e =>
      rw [Gather_ready_error metricName namespace_ objectRef podSelector metricSelector s v ts
          w1 n e w2 hm hr,
        Gather_ready_error metricName namespace_ objectRef podSelector metricSelector _ v ts
          w1 n e w2 hmc' hprc', hm, hr]
      exact ⟨by simp, ⟨_, rfl, rfl, by simp⟩, rfl, rfl, rfl, rfl, rfl, rfl, rfl⟩
    | none =>
      rw [Gather_ok metricName namespace_ objectRef podSelector metricSelector s v ts w1 n w2
          hm hr,
        Gather_ok metricName namespace_ objectRef podSelector metricSelector _ v ts w1 n w2
          hmc' hprc', hm, hr]
      exact ⟨by simp, ⟨_, rfl, rfl, by simp⟩, rfl, rfl, rfl, rfl, rfl, rfl, rfl⟩

/-- Witness for C8: the clients of the machine answer only for the metric
selector `tier=db` and the pod selector `app=web`, and fail for every other
selector; they are replaced by clients that answer every call.  `Gather`
succeeds, with the value of the one and the count of the other. -/
theorem argument_routing_witness :
    (Gather.Gather "requests" "default" (some demo.deployment) "app=web" "tier=db"
        (demo.machine (demo.selectiveClient "tier=db" 42) (demo.selectiveCounter "app=web" 3))).2.calls
      = [] ++ [Call.GetObjectMetric "requests" "default" (some demo.deployment) "tier=db",
          Call.GetReadyPodsCount "default" "app=web"]
    ∧ (Gather.Gather "requests" "default" (some demo.deployment) "app=web" "tier=db"
        (demo.machine (demo.selectiveClient "tier=db" 42) (demo.selectiveCounter "app=web" 3))).1
      = .returned (some
          { Current := { Value := some 42, AverageValue := none }
            ReadyPodCount := some 3
            Timestamp := 1000 }, none)
    ∧ (Gather.Gather "requests" "default" (some demo.deployment) "app=web" "tier=db"
        (demo.machine (demo.metricsClient 42 none) (demo.readyCounter 3 none))).1
      = (Gather.Gather "requests" "default" (some demo.deployment) "app=web" "tier=db"
        (demo.machine (demo.selectiveClient "tier=db" 42) (demo.selectiveCounter "app=web" 3))).1
    ∧ (Gather.Gather "requests" "default" (some demo.deployment) "app=web" "tier=db"
        (demo.machine (demo.metricsClient 42 none) (demo.readyCounter 3 none))).2.world
      = (Gather.Gather "requests" "default" (some demo.deployment) "app=web" "tier=db"
        (demo.machine (demo.selectiveClient "tier=db" 42) (demo.selectiveCounter "app=web" 3))).2.world :=
  have h := argument_routing "requests" "default" (some demo.deployment) "app=web" "tier=db"
    (demo.machine (demo.selectiveClient "tier=db" 42) (demo.selectiveCounter "app=web" 3))
    (demo.metricsClient 42 none) (demo.readyCounter 3 none) rfl rfl
  ⟨h.1.1, h.1.2.2.1 rfl rfl, h.2.2.2.1, h.2.2.2.2.1⟩

/-- C9. The only nil dereference of `objectRef` is on the metrics failure path.
Each of `Gather` and `GatherPerPod` panics with a nil dereference exactly when
`objectRef` is nil and `GetObjectMetric` returns a non-nil error, and returns a
result pair in every other case: always for a non-nil `objectRef`, and for a nil
`objectRef` whenever `GetObjectMetric` succeeds. -/
theorem objectRef_dereferenced_only_on_metrics_failure (metricName namespace_ : String)
    (objectRef : Option CrossVersionObjectReference) (podSelector metricSelector : Sel)
    (s : Machine W Sel Time Info) :
    ((Gather.Gather metricName namespace_ objectRef podSelector metricSelector s).1
        = .nilDereference ↔
      (objectRef = none
        ∧ (s.c.MetricsClient.GetObjectMetric metricName namespace_ objectRef metricSelector
            s.world).1.2.2 ≠ none))
    ∧ ((∃ res, (Gather.Gather metricName namespace_ objectRef podSelector metricSelector s).1
        = .returned res) ↔
      (objectRef ≠ none
        ∨ (s.c.MetricsClient.GetObjectMetric metricName namespace_ objectRef metricSelector
            s.world).1.2.2 = none))
    ∧ ((Gather.GatherPerPod metricName namespace_ objectRef metricSelector s).1
        = .nilDereference ↔
      (objectRef = none
        ∧ (s.c.MetricsClient.GetObjectMetric metricName namespace_ objectRef metricSelector
            s.world).1.2.2 ≠ none))
    ∧ ((∃ res, (Gather.GatherPerPod metricName namespace_ objectRef metricSelector s).1
        = .returned res) ↔
      (objectRef ≠ none
        ∨ (s.c.MetricsClient.GetObjectMetric metricName namespace_ objectRef metricSelector
            s.world).1.2.2 = none)) := by
  obtain ⟨v, ts, err, w1, hm⟩ := metric_response_shape
    (s.c.MetricsClient.GetObjectMetric metricName namespace_ objectRef metricSelector s.world)
  obtain ⟨n, rerr, w2, hr⟩ := ready_response_shape
    (s.c.PodReadyCounter.GetReadyPodsCount namespace_ podSelector w1)
  cases err with
  | some e =>
    cases objectRef with
    | none =>
      rw [Gather_metric_error_nil metricName namespace_ podSelector metricSelector s v ts e w1 hm,
        GatherPerPod_metric_error_nil metricName namespace_ metricSelector s v ts e w1 hm, hm]
      simp
    | some ref =>
      rw [Gather_metric_error metricName namespace_ ref podSelector metricSelector s v ts e w1 hm,
        GatherPerPod_metric_error metricName namespace_ ref metricSelector s v ts e w1 hm, hm]
      simp
  | none =>
    rw [GatherPerPod_ok metricName namespace_ objectRef metricSelector s v ts w1 hm]
    cases rerr with
    | some e =>
      rw [Gather_ready_error metricName namespace_ objectRef podSelector metricSelector s v ts
        w1 n e w2 hm hr, hm]
      simp
    | none =>
      rw [Gather_ok metricName namespace_ objectRef podSelector metricSelector s v ts w1 n w2
        hm hr, hm]
      simp

end object

namespace fake

variable {W Sel Time Info : Type}

/-- C10, as stated, fails in its last part: over a fake whose
`GetObjectMetricReactor` returns `(42, 1000, nil)`, `Gather` with a ready counter
that fails returns no metric at all, only the wrapped error of the ready
counter, so no `Current.Value` and no `Timestamp` is yielded. -/
theorem fake_gather_without_ready_count_counterexample :
    (demo.fakeClient 42).GetObjectMetricReactor "requests" "default" (some demo.deployment)
        "tier=db" 0 = ((42, 1000, none), 1)
    ∧ (object.Gather.Gather "requests" "default" (some demo.deployment) "app=web" "tier=db"
        (demo.fakeMachine (demo.fakeClient 42) (demo.fakeReadyCounter 0 (some demo.refused)))).1
      = .returned (none, some (Errorf "unable to calculate ready pods: " demo.refused))
    ∧ ¬ ∃ (m : object.Metric Nat) (e : Option GoError),
        (object.Gather.Gather "requests" "default" (some demo.deployment) "app=web" "tier=db"
          (demo.fakeMachine (demo.fakeClient 42)
            (demo.fakeReadyCounter 0 (some demo.refused)))).1
        = .returned (some m, e) := by
  refine ⟨rfl, rfl, ?_⟩
  rintro ⟨m, e, h⟩
  have h2 : (Outcome.returned (none, some (Errorf "unable to calculate ready pods: "
      demo.refused)) : Outcome (Option (object.Metric Nat) × Option GoError))
      = .returned (some m, e) := h
  simp at h2

/-- C10, amended.  The fake metrics client is a pure delegate: for every fake
and every argument tuple, each of its four methods returns the values and the
error its own reactor returns on the same arguments in the same order, leaves
the reactors in the state that one invocation leaves them in, and adds to the
reactor log that one invocation and nothing else.  Consequently, for `Gather` run
over the fake with `GetObjectMetricReactor` returning `(v, ts, nil)`: when the ready
counter returns `(n, nil)`, `Gather` yields a metric with `Current.Value = v`,
`ReadyPodCount = n` and `Timestamp = ts`; when the ready counter returns an error,
`Gather` yields no metric but that error wrapped; so every metric it yields has
`Current.Value = v` and `Timestamp = ts`. -/
theorem fake_client_pure_delegate (f : MetricsClient W Sel Time Info)
    (resource metricName namespace_ : String) (objectRef : Option CrossVersionObjectReference)
    (selector podSelector metricSelector : Sel) (w : World W Sel) :
    ((f.GetResourceMetric resource namespace_ selector w).1
        = (f.GetResourceMetricReactor resource namespace_ selector w.reactorWorld).1
      ∧ (f.GetResourceMetric resource namespace_ selector w).2.reactorWorld
        = (f.GetResourceMetricReactor resource namespace_ selector w.reactorWorld).2
      ∧ (f.GetResourceMetric resource namespace_ selector w).2.reactorCalls
        = w.reactorCalls ++ [ReactorCall.GetResourceMetricReactor resource namespace_ selector])
    ∧ ((f.GetRawMetric metricName namespace_ selector metricSelector w).1
        = (f.GetRawMetricReactor metricName namespace_ selector metricSelector w.reactorWorld).1
      ∧ (f.GetRawMetric metricName namespace_ selector metricSelector w).2.reactorWorld
        = (f.GetRawMetricReactor metricName namespace_ selector metricSelector w.reactorWorld).2
      ∧ (f.GetRawMetric metricName namespace_ selector metricSelector w).2.reactorCalls
        = w.reactorCalls
          ++ [ReactorCall.GetRawMetricReactor metricName namespace_ selector metricSelector])
    ∧ ((f.GetObjectMetric metricName namespace_ objectRef metricSelector w).1
        = (f.GetObjectMetricReactor metricName namespace_ objectRef metricSelector
            w.reactorWorld).1
      ∧ (f.GetObjectMetric metricName namespace_ objectRef metricSelector w).2.reactorWorld
        = (f.GetObjectMetricReactor metricName namespace_ objectRef metricSelector
            w.reactorWorld).2
      ∧ (f.GetObjectMetric metricName namespace_ objectRef metricSelector w).2.reactorCalls
        = w.reactorCalls
          ++ [ReactorCall.GetObjectMetricReactor metricName namespace_ objectRef metricSelector])
    ∧ ((f.GetExternalMetric metricName namespace_ selector w).1
        = (f.GetExternalMetricReactor metricName namespace_ selector w.reactorWorld).1
      ∧ (f.GetExternalMetric metricName namespace_ selector w).2.reactorWorld
        = (f.GetExternalMetricReactor metricName namespace_ selector w.reactorWorld).2
      ∧ (f.GetExternalMetric metricName namespace_ selector w).2.reactorCalls
        = w.reactorCalls ++ [ReactorCall.GetExternalMetricReactor metricName namespace_ selector])
    ∧ (∀ (s : object.Machine (World W Sel) Sel Time Info) (v : Int) (ts : Time) (w1 : W),
        s.c.MetricsClient = f.asClient →
        f.GetObjectMetricReactor metricName namespace_ objectRef metricSelector
          s.world.reactorWorld = ((v, ts, none), w1) →
        (∀ (n : Int) (w2 : World W Sel),
          s.c.PodReadyCounter.GetReadyPodsCount namespace_ podSelector
            { reactorWorld := w1
              reactorCalls := s.world.reactorCalls ++
                [ReactorCall.GetObjectMetricReactor metricName namespace_ objectRef
                  metricSelector] }
            = ((n, none), w2) →
          (object.Gather.Gather metricName namespace_ objectRef podSelector metricSelector s).1
            = .returned (some
                { Current := { Value := some v, AverageValue := none }
                  ReadyPodCount := some n
                  Timestamp := ts }, none))
        ∧ (∀ (n : Int) (e : GoError) (w2 : World W Sel),
          s.c.PodReadyCounter.GetReadyPodsCount namespace_ podSelector
            { reactorWorld := w1
              reactorCalls := s.world.reactorCalls ++
                [ReactorCall.GetObjectMetricReactor metricName namespace_ objectRef
                  metricSelector] }
            = ((n, some e), w2) →
          (object.Gather.Gather metricName namespace_ objectRef podSelector metricSelector s).1
            = .returned (none, some (Errorf "unable to calculate ready pods: " e)))
        ∧ (∀ (m : object.Metric Time) (e : Option GoError),
          (object.Gather.Gather metricName namespace_ objectRef podSelector metricSelector s).1
            = .returned (some m, e) →
          m.Current.Value = some v ∧ m.Timestamp = ts)) := by
  refine ⟨⟨rfl, rfl, rfl⟩, ⟨rfl, rfl, rfl⟩, ⟨rfl, rfl, rfl⟩, ⟨rfl, rfl, rfl⟩, ?_⟩
  intro s v ts w1 hc hm
  have hm' : s.c.MetricsClient.GetObjectMetric metricName namespace_ objectRef metricSelector
      s.world = ((v, ts, none),
        { reactorWorld := w1
          reactorCalls := s.world.reactorCalls ++
            [ReactorCall.GetObjectMetricReactor metricName namespace_ objectRef metricSelector] }) := by
    rw [hc]
    simp [MetricsClient.asClient, MetricsClient.GetObjectMetric, hm]
  refine ⟨?_, ?_, ?_⟩
  · intro n w2 hr
    rw [object.Gather_ok metricName namespace_ objectRef podSelector metricSelector s
        v ts _ n w2 hm' hr]
  · intro n e w2 hr
    rw [object.Gather_ready_error metricName namespace_ objectRef podSelector metricSelector s
        v ts _ n e w2 hm' hr]
  · intro m e h
    obtain ⟨n, rerr, w2, hr⟩ := object.ready_response_shape
      (s.c.PodReadyCounter.GetReadyPodsCount namespace_ podSelector
        { reactorWorld := w1
          reactorCalls := s.world.reactorCalls ++
            [ReactorCall.GetObjectMetricReactor metricName namespace_ objectRef metricSelector] })
    cases rerr with
    | some err =>
      rw [object.Gather_ready_error metricName namespace_ objectRef podSelector metricSelector s
        v ts _ n err w2 hm' hr] at h
      simp at h
    | none =>
      rw [object.Gather_ok metricName namespace_ objectRef podSelector metricSelector s
        v ts _ n w2 hm' hr] at h
      simp only [Outcome.returned.injEq, Prod.mk.injEq, Option.some.injEq] at h
      rw [← h.1]
      exact ⟨rfl, rfl⟩

/-- Witness for the amended C10: the external reactor of the fake fails and the
method hands that failure back; `Gather` over the fake, whose object reactor
reports `42`, yields that value when the ready counter reports `3` pods. -/
theorem fake_client_pure_delegate_witness :
    ((demo.fakeClient 42).GetExternalMetric "requests" "default" "app=web"
        { reactorWorld := 5, reactorCalls := [] }).1
      = ((demo.fakeClient 42).GetExternalMetricReactor "requests" "default" "app=web" 5).1
    ∧ ((demo.fakeClient 42).GetExternalMetricReactor "requests" "default" "app=web" 5).1
      = ([], 0, some demo.refused)
    ∧ (object.Gather.Gather "requests" "default" (some demo.deployment) "app=web" "tier=db"
        (demo.fakeMachine (demo.fakeClient 42) (demo.fakeReadyCounter 3 none))).1
      = .returned (some
          { Current := { Value := some 42, AverageValue := none }
            ReadyPodCount := some 3
            Timestamp := 1000 }, none) :=
  have h := fake_client_pure_delegate (demo.fakeClient 42) "cpu" "requests" "default"
    (some demo.deployment) "app=web" "app=web" "tier=db"
    { reactorWorld := 5, reactorCalls := [] }
  ⟨h.2.2.2.1.1, rfl,
    (h.2.2.2.2 (demo.fakeMachine (demo.fakeClient 42) (demo.fakeReadyCounter 3 none))
      42 1000 1 rfl rfl).1 3 _ rfl⟩

end fake

end K8sHorizMetrics
